import Mathlib

/-!
Verification of the dex-mcp-server repository: a shallow embedding of
`src/dex_mcp_server/client.py` (the Dex CRM HTTP client) and
`src/dex_mcp_server/server.py` (the MCP tool catalog and dispatcher),
together with theorems settling the specification's claims about them.

Python values that can cross the JSON boundary are modelled by `Json`;
Python `None` is `Json.null`, and Python truthiness is `Json.truthy`.
Each client method is embedded as a pure function from its parameters to
the `Request` (HTTP method, path, query params, body) it issues; the
network round trip itself is abstracted as a `transport` function
supplied to the dispatcher.
-/

/-- JSON values (= the Python values handled by the server: `None` is `null`). -/
inductive Json where
  | null
  | bool (b : Bool)
  | num (n : Int)
  | str (s : String)
  | arr (xs : List Json)
  | obj (kvs : List (String × Json))
deriving Repr

/-- Python `x is None` on JSON-representable values. -/
def Json.isNull : Json → Bool
  | .null => true
  | _ => false

/-- Python truthiness (`if x:`) on JSON-representable values. -/
def Json.truthy : Json → Bool
  | .null => false
  | .bool b => b
  | .num n => n != 0
  | .str s => !(s == "")
  | .arr xs => !xs.isEmpty
  | .obj kvs => !kvs.isEmpty

/-- The elements of a Python list value; non-lists have no elements
(iterating them would be a `TypeError`, outside the behaviour claimed). -/
def Json.asList : Json → List Json
  | .arr xs => xs
  | _ => []

/-- Python `str(x)` as used in f-string path interpolation. -/
def Json.interp : Json → String
  | .null => "None"
  | .bool b => if b then "True" else "False"
  | .num n => toString n
  | .str s => s
  | .arr _ => "[...]"
  | .obj _ => "{...}"

/-- An HTTP request as assembled by `DexClient._request`'s callers:
method, path, optional query parameters, optional JSON body. -/
structure Request where
  method : String
  path : String
  params : Option (List (String × Json))
  body : Option Json
deriving Repr

/-- The key/value pairs of the request's top-level JSON object body. -/
def Request.bodyObj (r : Request) : List (String × Json) :=
  match r.body with
  | some (.obj kvs) => kvs
  | _ => []

/-- The key/value pairs of the object stored under key `k` of the body. -/
def innerObj (r : Request) (k : String) : List (String × Json) :=
  match r.bodyObj.lookup k with
  | some (.obj kvs) => kvs
  | _ => []

/-- Whether a key is present in an association list (a Python dict). -/
def hasKey (kvs : List (String × Json)) (k : String) : Bool :=
  (kvs.lookup k).isSome

/-! ## The CRM client (`client.py`), one request builder per method -/

/-- `DexClient.list_contacts`: GET /contacts with limit/offset query. -/
def list_contacts (limit offset : Json) : Request :=
  { method := "GET", path := "/contacts",
    params := some [("limit", limit), ("offset", offset)], body := none }

/-- `DexClient.get_contact`: GET /contacts/{contact_id}. -/
def get_contact (contact_id : Json) : Request :=
  { method := "GET", path := "/contacts/" ++ contact_id.interp,
    params := none, body := none }

/-- `DexClient.search_contacts_by_email`: GET /search/contacts?email=… -/
def search_contacts_by_email (email : Json) : Request :=
  { method := "GET", path := "/search/contacts",
    params := some [("email", email)], body := none }

/-- `DexClient.create_contact`: builds `contact_data` with the scalar
fields always present (None fields serialize as null), nests
`contact_emails` only if `email` is truthy and `contact_phone_numbers`
only if `phone` is truthy, then POSTs `{"contact": contact_data}`. -/
def create_contact (first_name last_name email phone phone_label
    job_title description linkedin twitter instagram website : Json) : Request :=
  let contact_data : List (String × Json) :=
    [("first_name", first_name),
     ("last_name", last_name),
     ("job_title", job_title),
     ("description", description),
     ("linkedin", linkedin),
     ("twitter", twitter),
     ("instagram", instagram),
     ("website", website)]
  let contact_data :=
    if email.truthy then
      contact_data ++ [("contact_emails", .obj [("data", .obj [("email", email)])])]
    else contact_data
  let contact_data :=
    if phone.truthy then
      contact_data ++
        [("contact_phone_numbers",
          .obj [("data", .obj [("phone_number", phone), ("label", phone_label)])])]
    else contact_data
  { method := "POST", path := "/contacts", params := none,
    body := some (.obj [("contact", .obj contact_data)]) }

/-- `DexClient.update_contact`: PUT /contacts/{id} with body
`{"contact": fields}` where `fields` are the caller's keyword arguments. -/
def update_contact (contact_id : Json) (fields : List (String × Json)) : Request :=
  { method := "PUT", path := "/contacts/" ++ contact_id.interp, params := none,
    body := some (.obj [("contact", .obj fields)]) }

/-- `DexClient.delete_contact`: DELETE /contacts/{id}. -/
def delete_contact (contact_id : Json) : Request :=
  { method := "DELETE", path := "/contacts/" ++ contact_id.interp,
    params := none, body := none }

/-- `DexClient.list_notes`: GET /timeline_items with limit/offset query. -/
def list_notes (limit offset : Json) : Request :=
  { method := "GET", path := "/timeline_items",
    params := some [("limit", limit), ("offset", offset)], body := none }

/-- `DexClient.get_notes_for_contact`: GET /timeline_items/contacts/{id}. -/
def get_notes_for_contact (contact_id : Json) : Request :=
  { method := "GET", path := "/timeline_items/contacts/" ++ contact_id.interp,
    params := none, body := none }

/-- `DexClient.create_note`: the current UTC time (the value
`datetime.now(timezone.utc).isoformat()` would produce) is passed in as
`now`; it replaces `event_time` exactly when `event_time is None`.
POSTs `{"timeline_event": {...}}` with `meeting_type` fixed to "note"
and the contact associations always nested, one entry per ID. -/
def create_note (now : String) (note : Json) (contact_ids : Json)
    (event_time : Json) : Request :=
  let event_time := if event_time.isNull then .str now else event_time
  let timeline_event : Json :=
    .obj [("note", note),
          ("event_time", event_time),
          ("meeting_type", .str "note"),
          ("timeline_items_contacts",
           .obj [("data", .arr (contact_ids.asList.map
                    fun cid => .obj [("contact_id", cid)]))])]
  { method := "POST", path := "/timeline_items", params := none,
    body := some (.obj [("timeline_event", timeline_event)]) }

/-- `DexClient.update_note`: PUT /timeline_items/{id}, body `{note}` only. -/
def update_note (note_id : Json) (note : Json) : Request :=
  { method := "PUT", path := "/timeline_items/" ++ note_id.interp, params := none,
    body := some (.obj [("timeline_event", .obj [("note", note)])]) }

/-- `DexClient.delete_note`: DELETE /timeline_items/{id}. -/
def delete_note (note_id : Json) : Request :=
  { method := "DELETE", path := "/timeline_items/" ++ note_id.interp,
    params := none, body := none }

/-- `DexClient.list_reminders`: GET /reminders with limit/offset query. -/
def list_reminders (limit offset : Json) : Request :=
  { method := "GET", path := "/reminders",
    params := some [("limit", limit), ("offset", offset)], body := none }

/-- `DexClient.create_reminder`: `reminder_data` always carries title,
text, is_complete and due_at_date; `reminders_contacts` is added only
if `contact_ids` is truthy (so `None` and the empty list are omitted).
POSTs `{"reminder": reminder_data}`. -/
def create_reminder (title due_date contact_ids text is_complete : Json) : Request :=
  let reminder_data : List (String × Json) :=
    [("title", title),
     ("text", text),
     ("is_complete", is_complete),
     ("due_at_date", due_date)]
  let reminder_data :=
    if contact_ids.truthy then
      reminder_data ++
        [("reminders_contacts",
          .obj [("data", .arr (contact_ids.asList.map
                   fun cid => .obj [("contact_id", cid)]))])]
    else reminder_data
  { method := "POST", path := "/reminders", params := none,
    body := some (.obj [("reminder", .obj reminder_data)]) }

/-- `DexClient.update_reminder`: the body holds exactly the parameters
that are not `None` (checked with `is not None`, so falsy-but-explicit
values such as "" or false are included), keyed title / text /
due_at_date / is_complete in that insertion order. -/
def update_reminder (reminder_id : Json)
    (title text due_date is_complete : Json) : Request :=
  let reminder_data : List (String × Json) :=
    (if !title.isNull then [("title", title)] else []) ++
    (if !text.isNull then [("text", text)] else []) ++
    (if !due_date.isNull then [("due_at_date", due_date)] else []) ++
    (if !is_complete.isNull then [("is_complete", is_complete)] else [])
  { method := "PUT", path := "/reminders/" ++ reminder_id.interp, params := none,
    body := some (.obj [("reminder", .obj reminder_data)]) }

/-- `DexClient.delete_reminder`: DELETE /reminders/{id}. -/
def delete_reminder (reminder_id : Json) : Request :=
  { method := "DELETE", path := "/reminders/" ++ reminder_id.interp,
    params := none, body := none }

/-- `DexClient.complete_reminder`: delegates to
`update_reminder(reminder_id, is_complete=True)`. -/
def complete_reminder (reminder_id : Json) : Request :=
  update_reminder reminder_id .null .null .null (.bool true)

/-! ## The dispatcher (`server.py`) -/

/-- One `TextContent(type="text", text=...)` protocol item. -/
structure TextContent where
  type : String
  text : String
deriving Repr, DecidableEq

/-- The message of the ValueError raised by `get_client` when no key is set. -/
def configError : String :=
  "DEX_API_KEY environment variable is required. " ++
  "Get your API key from https://getdex.com/appv3/settings/api"

/-- `get_client`: returns the cached client if one exists, otherwise reads
DEX_API_KEY from the environment; `if not api_key` raises ValueError
(modelled as `.error`) when the variable is unset or empty. -/
def get_client (cached env_DEX_API_KEY : Option String) : Except String String :=
  match cached with
  | some key => .ok key
  | none =>
    match env_DEX_API_KEY with
    | none => .error configError
    | some api_key => if api_key == "" then .error configError else .ok api_key

/-- Python `arguments[k]`: raises KeyError when the key is missing;
`str(KeyError(k))` is the key wrapped in single quotes. -/
def pyIndex (arguments : List (String × Json)) (k : String) : Except String Json :=
  match arguments.lookup k with
  | some v => .ok v
  | none => .error ("\x27" ++ k ++ "\x27")

/-- Python `arguments.get(k, default)`: the default applies only when the
key is absent (dict keys are unique, so the first binding is the value). -/
def pyGetD (arguments : List (String × Json)) (k : String) (default : Json) : Json :=
  (arguments.lookup k).getD default

/-- Python `arguments.get(k)` (default `None`). -/
def pyGet (arguments : List (String × Json)) (k : String) : Json :=
  pyGetD arguments k .null

/-- Outcome of routing a (name, arguments) pair inside `call_tool`'s try
block: an unknown tool name, a KeyError during argument extraction, or
the request the selected client method issues. -/
inductive Dispatch where
  | unknown
  | argError (msg : String)
  | req (r : Request)
deriving Repr

/-- Sequence Python's argument indexing: a KeyError aborts the branch. -/
def withArg : Except String Json → (Json → Dispatch) → Dispatch
  | .error e, _ => .argError e
  | .ok v, f => f v

/-- The routing chain of `call_tool` in `server.py`: one branch per tool
name, extracting arguments exactly as the Python code does and building
the client request. `now` is the current UTC timestamp string used by
`create_note`'s default. The `dex_create_reminder` branch does not pass
`is_complete`, so the client default `False` applies. -/
def dispatchRequest (now : String) (name : String)
    (arguments : List (String × Json)) : Dispatch :=
  if name == "dex_list_contacts" then
    .req (list_contacts (pyGetD arguments "limit" (.num 10))
      (pyGetD arguments "offset" (.num 0)))
  else if name == "dex_get_contact" then
    withArg (pyIndex arguments "contact_id") fun cid => .req (get_contact cid)
  else if name == "dex_search_contacts" then
    withArg (pyIndex arguments "email") fun em => .req (search_contacts_by_email em)
  else if name == "dex_create_contact" then
    withArg (pyIndex arguments "first_name") fun fn =>
    withArg (pyIndex arguments "last_name") fun ln =>
    .req (create_contact fn ln (pyGet arguments "email") (pyGet arguments "phone")
      (pyGetD arguments "phone_label" (.str "Work")) (pyGet arguments "job_title")
      (pyGet arguments "description") (pyGet arguments "linkedin")
      (pyGet arguments "twitter") (pyGet arguments "instagram")
      (pyGet arguments "website"))
  else if name == "dex_update_contact" then
    withArg (pyIndex arguments "contact_id") fun cid =>
    .req (update_contact cid (arguments.filter fun kv => !(kv.1 == "contact_id")))
  else if name == "dex_delete_contact" then
    withArg (pyIndex arguments "contact_id") fun cid => .req (delete_contact cid)
  else if name == "dex_list_notes" then
    .req (list_notes (pyGetD arguments "limit" (.num 10))
      (pyGetD arguments "offset" (.num 0)))
  else if name == "dex_get_notes_for_contact" then
    withArg (pyIndex arguments "contact_id") fun cid => .req (get_notes_for_contact cid)
  else if name == "dex_create_note" then
    withArg (pyIndex arguments "note") fun note =>
    withArg (pyIndex arguments "contact_ids") fun cids =>
    .req (create_note now note cids (pyGet arguments "event_time"))
  else if name == "dex_update_note" then
    withArg (pyIndex arguments "note_id") fun nid =>
    withArg (pyIndex arguments "note") fun note => .req (update_note nid note)
  else if name == "dex_delete_note" then
    withArg (pyIndex arguments "note_id") fun nid => .req (delete_note nid)
  else if name == "dex_list_reminders" then
    .req (list_reminders (pyGetD arguments "limit" (.num 10))
      (pyGetD arguments "offset" (.num 0)))
  else if name == "dex_create_reminder" then
    withArg (pyIndex arguments "title") fun title =>
    withArg (pyIndex arguments "due_date") fun dd =>
    .req (create_reminder title dd (pyGet arguments "contact_ids")
      (pyGet arguments "text") (.bool false))
  else if name == "dex_update_reminder" then
    withArg (pyIndex arguments "reminder_id") fun rid =>
    .req (update_reminder rid (pyGet arguments "title") (pyGet arguments "text")
      (pyGet arguments "due_date") (pyGet arguments "is_complete"))
  else if name == "dex_complete_reminder" then
    withArg (pyIndex arguments "reminder_id") fun rid => .req (complete_reminder rid)
  else if name == "dex_delete_reminder" then
    withArg (pyIndex arguments "reminder_id") fun rid => .req (delete_reminder rid)
  else
    .unknown

/-- Serialization of the success payload, modelling
`json.dumps(result, indent=2)` (the exact whitespace layout is immaterial
to every claim; only that a deterministic text rendering is returned). -/
def Json.dumps : Json → String
  | .null => "null"
  | .bool b => if b then "true" else "false"
  | .num n => toString n
  | .str s => "\"" ++ s ++ "\""
  | .arr xs => "[" ++ String.intercalate ", " (xs.attach.map fun x => Json.dumps x.1) ++ "]"
  | .obj kvs =>
      "\x7b" ++ String.intercalate ", "
        (kvs.attach.map fun kv => "\"" ++ kv.1.1 ++ "\": " ++ Json.dumps kv.1.2) ++ "\x7d"
decreasing_by
  · have h := List.sizeOf_lt_of_mem x.2
    simp only [Json.arr.sizeOf_spec]
    omega
  · have h := List.sizeOf_lt_of_mem kv.2
    have h2 : sizeOf kv.1.2 < sizeOf kv.1 := by
      obtain ⟨⟨a, b⟩, hm⟩ := kv
      simp only [Prod.mk.sizeOf_spec]
      omega
    simp only [Json.obj.sizeOf_spec]
    omega

/-! ## The tool catalog (`list_tools` in `server.py`) -/

/-- One property of a tool's inputSchema: its JSON type, the item type
for arrays, the declared default (if any), and its description. -/
structure SchemaProp where
  pname : String
  ptype : String
  items : Option String
  pdefault : Option Json
  pdescription : String
deriving Repr

/-- One catalog entry: tool name, description, inputSchema properties
and required list (empty when the schema declares no required key). -/
structure Tool where
  name : String
  description : String
  properties : List SchemaProp
  required : List String
deriving Repr

/-- The catalog returned by `list_tools` in `server.py`, verbatim. -/
def list_tools : List Tool :=
  [ -- Contacts
    { name := "dex_list_contacts",
      description := "List all contacts from Dex CRM with pagination. Returns contact details including name, email, phone, job title, and social profiles.",
      properties :=
        [⟨"limit", "integer", none, some (.num 10), "Maximum number of contacts to return (default: 10, max: 100)"⟩,
         ⟨"offset", "integer", none, some (.num 0), "Number of contacts to skip for pagination (default: 0)"⟩],
      required := [] },
    { name := "dex_get_contact",
      description := "Get detailed information about a specific contact by their ID.",
      properties :=
        [⟨"contact_id", "string", none, none, "The UUID of the contact to retrieve"⟩],
      required := ["contact_id"] },
    { name := "dex_search_contacts",
      description := "Search for contacts by email address.",
      properties :=
        [⟨"email", "string", none, none, "Email address to search for"⟩],
      required := ["email"] },
    { name := "dex_create_contact",
      description := "Create a new contact in Dex CRM.",
      properties :=
        [⟨"first_name", "string", none, none, "Contact\x27s first name"⟩,
         ⟨"last_name", "string", none, none, "Contact\x27s last name"⟩,
         ⟨"email", "string", none, none, "Contact\x27s email address"⟩,
         ⟨"phone", "string", none, none, "Contact\x27s phone number"⟩,
         ⟨"phone_label", "string", none, some (.str "Work"), "Label for phone number (e.g., \x27Work\x27, \x27Mobile\x27)"⟩,
         ⟨"job_title", "string", none, none, "Contact\x27s job title"⟩,
         ⟨"description", "string", none, none, "Notes about the contact"⟩,
         ⟨"linkedin", "string", none, none, "LinkedIn username"⟩,
         ⟨"twitter", "string", none, none, "Twitter handle"⟩,
         ⟨"instagram", "string", none, none, "Instagram username"⟩,
         ⟨"website", "string", none, none, "Personal website URL"⟩],
      required := ["first_name", "last_name"] },
    { name := "dex_update_contact",
      description := "Update an existing contact\x27s information.",
      properties :=
        [⟨"contact_id", "string", none, none, "The UUID of the contact to update"⟩,
         ⟨"first_name", "string", none, none, "New first name"⟩,
         ⟨"last_name", "string", none, none, "New last name"⟩,
         ⟨"job_title", "string", none, none, "New job title"⟩,
         ⟨"description", "string", none, none, "New description/notes"⟩,
         ⟨"linkedin", "string", none, none, "New LinkedIn username"⟩,
         ⟨"twitter", "string", none, none, "New Twitter handle"⟩,
         ⟨"instagram", "string", none, none, "New Instagram username"⟩,
         ⟨"website", "string", none, none, "New website URL"⟩],
      required := ["contact_id"] },
    { name := "dex_delete_contact",
      description := "Delete a contact from Dex CRM.",
      properties :=
        [⟨"contact_id", "string", none, none, "The UUID of the contact to delete"⟩],
      required := ["contact_id"] },
    -- Notes
    { name := "dex_list_notes",
      description := "List all notes from Dex CRM with pagination. Notes are timeline items that can be associated with contacts.",
      properties :=
        [⟨"limit", "integer", none, some (.num 10), "Maximum number of notes to return (default: 10)"⟩,
         ⟨"offset", "integer", none, some (.num 0), "Number of notes to skip for pagination (default: 0)"⟩],
      required := [] },
    { name := "dex_get_notes_for_contact",
      description := "Get all notes associated with a specific contact.",
      properties :=
        [⟨"contact_id", "string", none, none, "The UUID of the contact to get notes for"⟩],
      required := ["contact_id"] },
    { name := "dex_create_note",
      description := "Create a new note and associate it with one or more contacts.",
      properties :=
        [⟨"note", "string", none, none, "The note content"⟩,
         ⟨"contact_ids", "array", some "string", none, "List of contact UUIDs to associate with this note"⟩,
         ⟨"event_time", "string", none, none, "ISO 8601 timestamp for the note (defaults to now)"⟩],
      required := ["note", "contact_ids"] },
    { name := "dex_update_note",
      description := "Update the content of an existing note.",
      properties :=
        [⟨"note_id", "string", none, none, "The UUID of the note to update"⟩,
         ⟨"note", "string", none, none, "New note content"⟩],
      required := ["note_id", "note"] },
    { name := "dex_delete_note",
      description := "Delete a note from Dex CRM.",
      properties :=
        [⟨"note_id", "string", none, none, "The UUID of the note to delete"⟩],
      required := ["note_id"] },
    -- Reminders
    { name := "dex_list_reminders",
      description := "List all reminders from Dex CRM with pagination. Reminders can be associated with contacts and have due dates.",
      properties :=
        [⟨"limit", "integer", none, some (.num 10), "Maximum number of reminders to return (default: 10)"⟩,
         ⟨"offset", "integer", none, some (.num 0), "Number of reminders to skip for pagination (default: 0)"⟩],
      required := [] },
    { name := "dex_create_reminder",
      description := "Create a new reminder, optionally associated with contacts.",
      properties :=
        [⟨"title", "string", none, none, "Reminder title"⟩,
         ⟨"due_date", "string", none, none, "Due date in YYYY-MM-DD format"⟩,
         ⟨"contact_ids", "array", some "string", none, "List of contact UUIDs to associate with this reminder"⟩,
         ⟨"text", "string", none, none, "Additional reminder details"⟩],
      required := ["title", "due_date"] },
    { name := "dex_update_reminder",
      description := "Update an existing reminder.",
      properties :=
        [⟨"reminder_id", "string", none, none, "The UUID of the reminder to update"⟩,
         ⟨"title", "string", none, none, "New title"⟩,
         ⟨"text", "string", none, none, "New description text"⟩,
         ⟨"due_date", "string", none, none, "New due date in YYYY-MM-DD format"⟩,
         ⟨"is_complete", "boolean", none, none, "Mark as complete or incomplete"⟩],
      required := ["reminder_id"] },
    { name := "dex_complete_reminder",
      description := "Mark a reminder as complete.",
      properties :=
        [⟨"reminder_id", "string", none, none, "The UUID of the reminder to complete"⟩],
      required := ["reminder_id"] },
    { name := "dex_delete_reminder",
      description := "Delete a reminder from Dex CRM.",
      properties :=
        [⟨"reminder_id", "string", none, none, "The UUID of the reminder to delete"⟩],
      required := ["reminder_id"] } ]

/-- `call_tool` in `server.py`: obtains the client (this happens before
the try block, so a missing API key escapes as `.error`), then routes the
call; inside the try block every failure — KeyError during argument
extraction or any error raised by the client call (`transport`) — is
caught and turned into a single "Error: ..." text content, an unknown
name yields a single "Unknown tool: ..." text content, and success yields
the serialized payload as a single text content. -/
def call_tool (cached env : Option String) (now : String)
    (transport : Request → Except String Json)
    (name : String) (arguments : List (String × Json)) :
    Except String (List TextContent) :=
  match get_client cached env with
  | .error e => .error e
  | .ok _ =>
    match dispatchRequest now name arguments with
    | .unknown => .ok [⟨"text", "Unknown tool: " ++ name⟩]
    | .argError e => .ok [⟨"text", "Error: " ++ e⟩]
    | .req r =>
      match transport r with
      | .ok result => .ok [⟨"text", Json.dumps result⟩]
      | .error e => .ok [⟨"text", "Error: " ++ e⟩]

/-! ## Client method signatures and the catalog-mirroring contract -/

/-- One parameter of a `DexClient` method: Python name, annotated type in
JSON-schema terms (str maps to "string", int to "integer", bool to
"boolean", list of str to "array" of "string"), and its Python default
(`none` means the parameter is required; `some .null` means `= None`). -/
structure ClientParam where
  cname : String
  ctype : String
  citems : Option String
  cdefault : Option Json
deriving Repr

/-- A `DexClient` method signature: its named parameters in order, and
whether it additionally accepts arbitrary keyword arguments. -/
structure ClientMethod where
  mname : String
  params : List ClientParam
  kwargs : Bool
deriving Repr

/-- The `DexClient` method signature behind each tool name, transcribed
from `client.py`. `update_contact` takes `contact_id` plus arbitrary
field keyword arguments. -/
def clientMethodFor : String → ClientMethod
  | "dex_list_contacts" =>
    ⟨"list_contacts",
     [⟨"limit", "integer", none, some (.num 10)⟩,
      ⟨"offset", "integer", none, some (.num 0)⟩], false⟩
  | "dex_get_contact" =>
    ⟨"get_contact", [⟨"contact_id", "string", none, none⟩], false⟩
  | "dex_search_contacts" =>
    ⟨"search_contacts_by_email", [⟨"email", "string", none, none⟩], false⟩
  | "dex_create_contact" =>
    ⟨"create_contact",
     [⟨"first_name", "string", none, none⟩,
      ⟨"last_name", "string", none, none⟩,
      ⟨"email", "string", none, some .null⟩,
      ⟨"phone", "string", none, some .null⟩,
      ⟨"phone_label", "string", none, some (.str "Work")⟩,
      ⟨"job_title", "string", none, some .null⟩,
      ⟨"description", "string", none, some .null⟩,
      ⟨"linkedin", "string", none, some .null⟩,
      ⟨"twitter", "string", none, some .null⟩,
      ⟨"instagram", "string", none, some .null⟩,
      ⟨"website", "string", none, some .null⟩], false⟩
  | "dex_update_contact" =>
    ⟨"update_contact", [⟨"contact_id", "string", none, none⟩], true⟩
  | "dex_delete_contact" =>
    ⟨"delete_contact", [⟨"contact_id", "string", none, none⟩], false⟩
  | "dex_list_notes" =>
    ⟨"list_notes",
     [⟨"limit", "integer", none, some (.num 10)⟩,
      ⟨"offset", "integer", none, some (.num 0)⟩], false⟩
  | "dex_get_notes_for_contact" =>
    ⟨"get_notes_for_contact", [⟨"contact_id", "string", none, none⟩], false⟩
  | "dex_create_note" =>
    ⟨"create_note",
     [⟨"note", "string", none, none⟩,
      ⟨"contact_ids", "array", some "string", none⟩,
      ⟨"event_time", "string", none, some .null⟩], false⟩
  | "dex_update_note" =>
    ⟨"update_note",
     [⟨"note_id", "string", none, none⟩,
      ⟨"note", "string", none, none⟩], false⟩
  | "dex_delete_note" =>
    ⟨"delete_note", [⟨"note_id", "string", none, none⟩], false⟩
  | "dex_list_reminders" =>
    ⟨"list_reminders",
     [⟨"limit", "integer", none, some (.num 10)⟩,
      ⟨"offset", "integer", none, some (.num 0)⟩], false⟩
  | "dex_create_reminder" =>
    ⟨"create_reminder",
     [⟨"title", "string", none, none⟩,
      ⟨"due_date", "string", none, none⟩,
      ⟨"contact_ids", "array", some "string", some .null⟩,
      ⟨"text", "string", none, some .null⟩,
      ⟨"is_complete", "boolean", none, some (.bool false)⟩], false⟩
  | "dex_update_reminder" =>
    ⟨"update_reminder",
     [⟨"reminder_id", "string", none, none⟩,
      ⟨"title", "string", none, some .null⟩,
      ⟨"text", "string", none, some .null⟩,
      ⟨"due_date", "string", none, some .null⟩,
      ⟨"is_complete", "boolean", none, some .null⟩], false⟩
  | "dex_complete_reminder" =>
    ⟨"complete_reminder", [⟨"reminder_id", "string", none, none⟩], false⟩
  | "dex_delete_reminder" =>
    ⟨"delete_reminder", [⟨"reminder_id", "string", none, none⟩], false⟩
  | _ => ⟨"", [], false⟩

/-- Equality on scalar JSON values. Every default appearing in the
catalog and in the client signatures is a scalar (null, bool, num or
str); compound values compare unequal, which can only make a mirroring
check fail, never spuriously succeed. -/
def scalarBeq : Json → Json → Bool
  | .null, .null => true
  | .bool a, .bool b => a == b
  | .num a, .num b => a == b
  | .str a, .str b => a == b
  | _, _ => false

/-- Equality of optional (scalar) JSON values. -/
def optBeq : Option Json → Option Json → Bool
  | none, none => true
  | some a, some b => scalarBeq a b
  | _, _ => false

/-- The default a mirroring schema declares for a client parameter: a
Python default of `None` only marks the parameter optional (no declared
schema default); any other default value must be declared. -/
def declaredDefault : Option Json → Option Json
  | some v => if v.isNull then none else some v
  | none => none

/-- A schema property mirrors a client parameter when name, type, array
item type and declared default all agree. -/
def propMatches (p : SchemaProp) (c : ClientParam) : Bool :=
  p.pname == c.cname && p.ptype == c.ctype &&
  p.items == c.citems && optBeq p.pdefault (declaredDefault c.cdefault)

/-- The required parameters of a client method: those with no default. -/
def requiredOf (m : ClientMethod) : List String :=
  (m.params.filter fun c => c.cdefault.isNone).map ClientParam.cname

/-- A catalog entry mirrors a client method when its properties match the
method's parameters name by name (for a kwargs method, the named
parameters must lead the property list and the remaining properties are
the keyword fields) and its required list marks exactly the client
method's required parameters. -/
def mirrors (t : Tool) (m : ClientMethod) : Bool :=
  (if m.kwargs then
    decide (m.params.length ≤ t.properties.length) &&
      (((t.properties.take m.params.length).zip m.params).all
        fun p => propMatches p.1 p.2)
  else
    t.properties.length == m.params.length &&
      ((t.properties.zip m.params).all fun p => propMatches p.1 p.2)) &&
  t.required == requiredOf m

/-- Whether every catalog entry mirrors its client method. -/
def catalogMirrors : Bool :=
  list_tools.all fun t => mirrors t (clientMethodFor t.name)

/-- The catalog entry with the given name. -/
def toolNamed (n : String) : Option Tool :=
  list_tools.find? fun t => t.name == n

/-! ## Claim theorems -/

/-- C5: complete_reminder(reminder_id) is equivalent to
update_reminder(reminder_id, is_complete=True): it issues the identical
request — same HTTP method (PUT), path (/reminders/id) and body
(reminder with only is_complete true) — and therefore returns the same
result from any transport. -/
theorem c5_complete_reminder_equiv (reminder_id : Json) :
    complete_reminder reminder_id =
      update_reminder reminder_id .null .null .null (.bool true) ∧
    complete_reminder reminder_id =
      { method := "PUT", path := "/reminders/" ++ reminder_id.interp, params := none,
        body := some (.obj [("reminder", .obj [("is_complete", .bool true)])]) } :=
  ⟨rfl, rfl⟩

/-- C6: empty association lists are asymmetric: create_reminder with
contact_ids omitted (None) or the empty list yields a body with no
reminders_contacts key, while create_note always emits a
timeline_items_contacts key nesting one entry per supplied contact ID
(an empty data list when the list is empty). -/
theorem c6_empty_assoc_asymmetry :
    (∀ title due_date text is_complete : Json,
      hasKey (innerObj (create_reminder title due_date .null text is_complete)
        "reminder") "reminders_contacts" = false ∧
      hasKey (innerObj (create_reminder title due_date (.arr []) text is_complete)
        "reminder") "reminders_contacts" = false) ∧
    (∀ (now : String) (note event_time : Json) (cids : List Json),
      (innerObj (create_note now note (.arr cids) event_time)
          "timeline_event").lookup "timeline_items_contacts" =
        some (.obj [("data",
          .arr (cids.map fun cid => .obj [("contact_id", cid)]))])) :=
  ⟨fun _ _ _ _ => ⟨rfl, rfl⟩, fun _ _ _ _ => rfl⟩

/-- C7: every create_note body fixes meeting_type to the string "note",
and an explicitly supplied event_time appears in the body unchanged; the
current-time default (`now`) is used exactly when event_time is omitted
(None). -/
theorem c7_note_fixed_fields :
    ∀ (now : String) (note contact_ids : Json),
      (∀ event_time : Json,
        (innerObj (create_note now note contact_ids event_time)
          "timeline_event").lookup "meeting_type" = some (.str "note")) ∧
      (∀ event_time : String,
        (innerObj (create_note now note contact_ids (.str event_time))
          "timeline_event").lookup "event_time" = some (.str event_time)) ∧
      (innerObj (create_note now note contact_ids .null)
        "timeline_event").lookup "event_time" = some (.str now) :=
  fun _ _ _ => ⟨fun _ => rfl, fun _ => rfl, rfl⟩

/-- C3: update_contact puts exactly the explicitly supplied keyword
fields (and no others) into the request body's contact object, and
update_reminder's reminder object contains exactly the non-null subset
of title / text / due_at_date / is_complete; both builders are pure, so
calling the same update twice with the same field subset yields the same
body both times. -/
theorem c3_update_bodies_exact :
    (∀ (contact_id : Json) (fields : List (String × Json)),
      innerObj (update_contact contact_id fields) "contact" = fields) ∧
    (∀ reminder_id title text due_date is_complete : Json,
      hasKey (innerObj (update_reminder reminder_id title text due_date is_complete)
        "reminder") "title" = !title.isNull ∧
      hasKey (innerObj (update_reminder reminder_id title text due_date is_complete)
        "reminder") "text" = !text.isNull ∧
      hasKey (innerObj (update_reminder reminder_id title text due_date is_complete)
        "reminder") "due_at_date" = !due_date.isNull ∧
      hasKey (innerObj (update_reminder reminder_id title text due_date is_complete)
        "reminder") "is_complete" = !is_complete.isNull ∧
      ((innerObj (update_reminder reminder_id title text due_date is_complete)
          "reminder").map Prod.fst).all
        (fun k => k == "title" || k == "text" || k == "due_at_date" ||
          k == "is_complete") = true) ∧
    (∀ (contact_id : Json) (fields : List (String × Json)),
      update_contact contact_id fields = update_contact contact_id fields) ∧
    (∀ reminder_id title text due_date is_complete : Json,
      update_reminder reminder_id title text due_date is_complete =
        update_reminder reminder_id title text due_date is_complete) := by
  refine ⟨fun _ _ => rfl, ?_, fun _ _ => rfl, fun _ _ _ _ _ => rfl⟩
  intro rid t x d c
  cases h1 : t.isNull <;> cases h2 : x.isNull <;> cases h3 : d.isNull <;>
    cases h4 : c.isNull <;>
    simp only [update_reminder, innerObj, Request.bodyObj, hasKey, h1, h2, h3, h4] <;>
    exact ⟨rfl, rfl, rfl, rfl, rfl⟩

/-- C2 fails on the code at a concrete input: calling create_contact
with the explicitly provided falsy value email = "" (and everything else
omitted) produces a body with NO contact_emails key, although the claim
says an explicitly provided field is present; and the omitted optional
field job_title IS present (as null), although the claim says an omitted
field is absent. -/
theorem c2_counterexample :
    hasKey (innerObj (create_contact (.str "Ada") (.str "Lovelace") (.str "")
        .null (.str "Work") .null .null .null .null .null .null) "contact")
      "contact_emails" = false ∧
    hasKey (innerObj (create_contact (.str "Ada") (.str "Lovelace") (.str "")
        .null (.str "Work") .null .null .null .null .null .null) "contact")
      "job_title" = true :=
  ⟨rfl, rfl⟩

/-- C2 amended: presence of optional fields in the create bodies is as
follows. In create_contact, the scalar optional fields (job_title,
description, linkedin, twitter, instagram, website) are always present
(null when omitted), while contact_emails and contact_phone_numbers are
present exactly when email / phone are truthy — so a falsy-but-explicit
value such as "" is treated like an omission. In create_reminder, text,
is_complete and due_at_date are always present and reminders_contacts is
present exactly when contact_ids is truthy. In create_note, note,
event_time and timeline_items_contacts are always present. -/
theorem c2_amended_field_presence :
    (∀ first_name last_name email phone phone_label job_title description
        linkedin twitter instagram website : Json,
      hasKey (innerObj (create_contact first_name last_name email phone phone_label
          job_title description linkedin twitter instagram website) "contact")
        "job_title" = true ∧
      hasKey (innerObj (create_contact first_name last_name email phone phone_label
          job_title description linkedin twitter instagram website) "contact")
        "description" = true ∧
      hasKey (innerObj (create_contact first_name last_name email phone phone_label
          job_title description linkedin twitter instagram website) "contact")
        "linkedin" = true ∧
      hasKey (innerObj (create_contact first_name last_name email phone phone_label
          job_title description linkedin twitter instagram website) "contact")
        "twitter" = true ∧
      hasKey (innerObj (create_contact first_name last_name email phone phone_label
          job_title description linkedin twitter instagram website) "contact")
        "instagram" = true ∧
      hasKey (innerObj (create_contact first_name last_name email phone phone_label
          job_title description linkedin twitter instagram website) "contact")
        "website" = true ∧
      hasKey (innerObj (create_contact first_name last_name email phone phone_label
          job_title description linkedin twitter instagram website) "contact")
        "contact_emails" = email.truthy ∧
      hasKey (innerObj (create_contact first_name last_name email phone phone_label
          job_title description linkedin twitter instagram website) "contact")
        "contact_phone_numbers" = phone.truthy) ∧
    (∀ title due_date contact_ids text is_complete : Json,
      hasKey (innerObj (create_reminder title due_date contact_ids text is_complete)
        "reminder") "text" = true ∧
      hasKey (innerObj (create_reminder title due_date contact_ids text is_complete)
        "reminder") "is_complete" = true ∧
      hasKey (innerObj (create_reminder title due_date contact_ids text is_complete)
        "reminder") "due_at_date" = true ∧
      hasKey (innerObj (create_reminder title due_date contact_ids text is_complete)
        "reminder") "reminders_contacts" = contact_ids.truthy) ∧
    (∀ (now : String) (note contact_ids event_time : Json),
      hasKey (innerObj (create_note now note contact_ids event_time)
        "timeline_event") "note" = true ∧
      hasKey (innerObj (create_note now note contact_ids event_time)
        "timeline_event") "event_time" = true ∧
      hasKey (innerObj (create_note now note contact_ids event_time)
        "timeline_event") "timeline_items_contacts" = true) := by
  refine ⟨?_, ?_, fun _ _ _ _ => ⟨rfl, rfl, rfl⟩⟩
  · intro fn ln em ph pl jt de li tw ig ws
    cases he : em.truthy <;> cases hp : ph.truthy <;>
      simp only [create_contact, innerObj, Request.bodyObj, hasKey, he, hp] <;>
      exact ⟨rfl, rfl, rfl, rfl, rfl, rfl, rfl, rfl⟩
  · intro title dd cids text ic
    cases hc : cids.truthy <;>
      simp only [create_reminder, innerObj, Request.bodyObj, hasKey, hc] <;>
      exact ⟨rfl, rfl, rfl, rfl⟩

/-- C9: create_contact called with only first_name, last_name and a
(non-empty) email builds the body whose contact object lists every
unspecified scalar optional field explicitly as null, nests the email
under contact_emails as data.email, and has no contact_phone_numbers
key (the full body is given, so no such key occurs). -/
theorem c9_create_contact_scenario (first_name last_name email : String)
    (h : email ≠ "") :
    create_contact (.str first_name) (.str last_name) (.str email) .null
        (.str "Work") .null .null .null .null .null .null =
      { method := "POST", path := "/contacts", params := none,
        body := some (.obj [("contact", .obj
          [("first_name", .str first_name),
           ("last_name", .str last_name),
           ("job_title", .null),
           ("description", .null),
           ("linkedin", .null),
           ("twitter", .null),
           ("instagram", .null),
           ("website", .null),
           ("contact_emails", .obj [("data", .obj [("email", .str email)])])])]) } := by
  have he : Json.truthy (.str email) = true := by
    simp [Json.truthy, h]
  have hp : Json.truthy .null = false := rfl
  simp [create_contact, he, hp]

/-- C9 witness: the Ada Lovelace scenario from the specification. -/
theorem c9_witness :
    "ada@example.com" ≠ "" ∧
    create_contact (.str "Ada") (.str "Lovelace") (.str "ada@example.com") .null
        (.str "Work") .null .null .null .null .null .null =
      { method := "POST", path := "/contacts", params := none,
        body := some (.obj [("contact", .obj
          [("first_name", .str "Ada"),
           ("last_name", .str "Lovelace"),
           ("job_title", .null),
           ("description", .null),
           ("linkedin", .null),
           ("twitter", .null),
           ("instagram", .null),
           ("website", .null),
           ("contact_emails",
            .obj [("data", .obj [("email", .str "ada@example.com")])])])]) } :=
  ⟨by decide, c9_create_contact_scenario "Ada" "Lovelace" "ada@example.com" (by decide)⟩

/-- A transport that always succeeds, returning null. -/
def okTransport : Request → Except String Json := fun _ => .ok .null

/-- C1 fails on the code at a concrete input: with no cached client and
no DEX_API_KEY in the environment, `get_client` is called before the
try block, so its ValueError escapes `call_tool` (modelled as `.error`)
instead of being converted to a text result — even for a perfectly good
tool invocation. -/
theorem c1_counterexample :
    call_tool none none "2024-01-01T00:00:00+00:00" okTransport
      "dex_list_contacts" [] = .error configError :=
  rfl

/-- C1 amended: provided `get_client` succeeds (a client is cached or
the environment supplies a non-empty DEX_API_KEY), every tool invocation
— any name, any arguments, any transport behaviour — returns exactly one
text content and never raises; every KeyError during argument extraction
and every error raised by the client call is converted to a text payload
beginning with "Error: " followed by the underlying message. -/
theorem c1_amended (cached env : Option String) (now : String)
    (transport : Request → Except String Json) (name : String)
    (arguments : List (String × Json))
    (h : (get_client cached env).isOk = true) :
    (∃ t : TextContent, t.type = "text" ∧
       call_tool cached env now transport name arguments = .ok [t]) ∧
    (∀ e, dispatchRequest now name arguments = .argError e →
       call_tool cached env now transport name arguments =
         .ok [⟨"text", "Error: " ++ e⟩]) ∧
    (∀ r e, dispatchRequest now name arguments = .req r → transport r = .error e →
       call_tool cached env now transport name arguments =
         .ok [⟨"text", "Error: " ++ e⟩]) := by
  obtain ⟨key, hkey⟩ : ∃ k, get_client cached env = .ok k := by
    cases hg : get_client cached env with
    | ok k => exact ⟨k, rfl⟩
    | error e => rw [hg] at h; simp [Except.isOk, Except.toBool] at h
  refine ⟨?_, ?_, ?_⟩
  · cases hd : dispatchRequest now name arguments with
    | unknown =>
      exact ⟨⟨"text", "Unknown tool: " ++ name⟩, rfl, by simp [call_tool, hkey, hd]⟩
    | argError e =>
      exact ⟨⟨"text", "Error: " ++ e⟩, rfl, by simp [call_tool, hkey, hd]⟩
    | req r =>
      cases ht : transport r with
      | ok result =>
        exact ⟨⟨"text", result.dumps⟩, rfl, by simp [call_tool, hkey, hd, ht]⟩
      | error e =>
        exact ⟨⟨"text", "Error: " ++ e⟩, rfl, by simp [call_tool, hkey, hd, ht]⟩
  · intro e hd
    simp [call_tool, hkey, hd]
  · intro r e hd ht
    simp [call_tool, hkey, hd, ht]

/-- C1 witness: with a cached client, a call that hits a KeyError during
argument extraction (missing contact_id) yields the single text result
"Error: 'contact_id'". -/
theorem c1_witness :
    (get_client (some "key") none).isOk = true ∧
    call_tool (some "key") none "2024-01-01T00:00:00+00:00" okTransport
        "dex_get_contact" [] =
      .ok [⟨"text", "Error: \x27contact_id\x27"⟩] :=
  ⟨rfl,
   (c1_amended (some "key") none "2024-01-01T00:00:00+00:00" okTransport
      "dex_get_contact" [] rfl).2.1 ("\x27contact_id\x27") rfl⟩

/-- The 16 tool names the catalog declares. -/
def toolNames : List String := list_tools.map Tool.name

/-- C4: dispatching any name outside the catalog (with the client
available, as in any running session) returns the single text payload
"Unknown tool: <name>" — which contains the string "Unknown tool" and
the given name — and never raises. -/
theorem c4_unknown_tool (cached env : Option String) (now : String)
    (transport : Request → Except String Json) (name : String)
    (arguments : List (String × Json))
    (h : (get_client cached env).isOk = true)
    (hn : name ∉ toolNames) :
    call_tool cached env now transport name arguments =
      .ok [⟨"text", "Unknown tool: " ++ name⟩] := by
  obtain ⟨key, hkey⟩ : ∃ k, get_client cached env = .ok k := by
    cases hg : get_client cached env with
    | ok k => exact ⟨k, rfl⟩
    | error e => rw [hg] at h; simp [Except.isOk, Except.toBool] at h
  have hd : dispatchRequest now name arguments = .unknown := by
    simp only [toolNames, list_tools, List.map_cons, List.map_nil, List.mem_cons,
      List.not_mem_nil, or_false, not_or] at hn
    obtain ⟨h1, h2, h3, h4, h5, h6, h7, h8, h9, h10, h11, h12, h13, h14, h15, h16⟩ := hn
    simp [dispatchRequest, h1, h2, h3, h4, h5, h6, h7, h8, h9, h10, h11, h12,
      h13, h14, h15, h16]
  simp [call_tool, hkey, hd]

/-- C4 witness: the unregistered name "dex_nonexistent" soft-fails. -/
theorem c4_witness :
    (get_client (some "key") none).isOk = true ∧
    "dex_nonexistent" ∉ toolNames ∧
    call_tool (some "key") none "2024-01-01T00:00:00+00:00" okTransport
        "dex_nonexistent" [] =
      .ok [⟨"text", "Unknown tool: dex_nonexistent"⟩] :=
  ⟨rfl, by decide,
   c4_unknown_tool (some "key") none "2024-01-01T00:00:00+00:00" okTransport
     "dex_nonexistent" [] rfl (by decide)⟩

/-- C10: the dex_create_reminder branch of the dispatcher never forwards
an is_complete argument to the client — whatever the arguments contain,
any request it produces carries is_complete = false (the client default)
in the reminder body. -/
theorem c10_is_complete_dropped (now : String)
    (arguments : List (String × Json)) (r : Request)
    (h : dispatchRequest now "dex_create_reminder" arguments = .req r) :
    (innerObj r "reminder").lookup "is_complete" = some (.bool false) := by
  have h' : withArg (pyIndex arguments "title") (fun title =>
      withArg (pyIndex arguments "due_date") fun dd =>
        .req (create_reminder title dd (pyGet arguments "contact_ids")
          (pyGet arguments "text") (.bool false))) = .req r := h
  cases ht : pyIndex arguments "title" with
  | error e => rw [ht] at h'; exact absurd h' (by simp [withArg])
  | ok title =>
    cases hd : pyIndex arguments "due_date" with
    | error e => rw [ht, hd] at h'; exact absurd h' (by simp [withArg])
    | ok dd =>
      rw [ht, hd] at h'
      simp only [withArg, Dispatch.req.injEq] at h'
      subst h'
      cases hc : (pyGet arguments "contact_ids").truthy <;>
        simp only [create_reminder, innerObj, Request.bodyObj, hc] <;> rfl

/-- C10 witness: even with is_complete = true supplied in the arguments,
the built reminder body carries is_complete = false. -/
theorem c10_witness :
    dispatchRequest "2024-01-01T00:00:00+00:00" "dex_create_reminder"
        [("title", .str "Follow up"), ("due_date", .str "2024-06-01"),
         ("is_complete", .bool true)] =
      .req (create_reminder (.str "Follow up") (.str "2024-06-01") .null .null
        (.bool false)) ∧
    (innerObj (create_reminder (.str "Follow up") (.str "2024-06-01") .null .null
        (.bool false)) "reminder").lookup "is_complete" = some (.bool false) :=
  ⟨rfl,
   c10_is_complete_dropped "2024-01-01T00:00:00+00:00"
     [("title", .str "Follow up"), ("due_date", .str "2024-06-01"),
      ("is_complete", .bool true)]
     (create_reminder (.str "Follow up") (.str "2024-06-01") .null .null
       (.bool false)) rfl⟩

/-- C8 fails on the code at a concrete catalog entry: the
dex_create_reminder schema declares only title, due_date, contact_ids
and text, while the client method create_reminder additionally has the
is_complete parameter (default False) — so its declared schema does not
mirror the client method's parameters. -/
theorem c8_counterexample :
    ((toolNamed "dex_create_reminder").map fun t =>
       mirrors t (clientMethodFor "dex_create_reminder")) = some false ∧
    ((toolNamed "dex_create_reminder").map fun t =>
       t.properties.map SchemaProp.pname) =
      some ["title", "due_date", "contact_ids", "text"] ∧
    (clientMethodFor "dex_create_reminder").params.map ClientParam.cname =
      ["title", "due_date", "contact_ids", "text", "is_complete"] :=
  ⟨rfl, rfl, rfl⟩

/-- The create_reminder client signature with its is_complete parameter
removed — what the dex_create_reminder catalog entry actually mirrors. -/
def createReminderSansIsComplete : ClientMethod :=
  ⟨"create_reminder",
   [⟨"title", "string", none, none⟩,
    ⟨"due_date", "string", none, none⟩,
    ⟨"contact_ids", "array", some "string", some .null⟩,
    ⟨"text", "string", none, some .null⟩], false⟩

/-- C8 amended: the catalog has exactly 16 entries, one per CRM client
operation, and every entry's declared schema mirrors its client method's
parameters (names, types, declared defaults for non-None client
defaults, and required markers exactly on the parameters without a
default) — except dex_create_reminder, whose schema omits the client's
is_complete parameter and mirrors the signature without it. -/
theorem c8_amended :
    list_tools.length = 16 ∧
    list_tools.map Tool.name =
      ["dex_list_contacts", "dex_get_contact", "dex_search_contacts",
       "dex_create_contact", "dex_update_contact", "dex_delete_contact",
       "dex_list_notes", "dex_get_notes_for_contact", "dex_create_note",
       "dex_update_note", "dex_delete_note",
       "dex_list_reminders", "dex_create_reminder", "dex_update_reminder",
       "dex_complete_reminder", "dex_delete_reminder"] ∧
    (list_tools.all fun t =>
      if t.name == "dex_create_reminder" then
        mirrors t createReminderSansIsComplete
      else
        mirrors t (clientMethodFor t.name)) = true :=
  ⟨rfl, rfl, rfl⟩
